import Mathlib

/-!
Shallow embedding of the stream playback-lifecycle controller
(`src/stream/useStream.ts` and `src/common/stream.ts`).

The hook's mutable refs and React state are collected in a state record
`St`.  The external player component, the attempt outcomes (which of
first-frame / error / load-rejection / timeout settles the race) and
external trigger updates are an explicit environment `Env`; the hook's
configuration (stream URL map, video element presence, AUTO quality
setting) is `Cfg`.  The controller's asynchronous functions are modelled
as sequential state transformers (the system is single-threaded with
cooperative suspension); observable actions are logged in an event list.
`doDestroyAndPlay`'s self-recursion through `doDestroyAndPlayRef` is
modelled with an explicit gas argument that exactly covers the recursion
depth the source allows (`retryCount` grows until it reaches `maxRetry`).
-/

set_option maxRecDepth 8000

namespace UseStream

/-- PlayerStatus from `src/common/stream.ts`. -/
inductive PlayerStatus
  | STOPPED
  | DESTROYING
  | DESTROYED
  | LOADING
  | LOADED
  | PLAYING
  | PLAYED
  | PAUSED
  | CHANGING
  | SEEKING
deriving DecidableEq

/-- QUALITIES from `src/common/stream.ts`: mapping for accessing stream URLs. -/
def QUALITIES : List String := ["lo", "me", "hi", "hd"]

/-- The mutable `stateRefs` record of the hook: point-in-time trigger values
read by asynchronous code (`useStream.ts` line 120). -/
structure TriggerRefs where
  isVisible : Bool
  isIdleTimeout : Bool
  isMultiSession : Bool
  isExpired : Bool
  isMaintenance : Bool
  snapshot : String
deriving DecidableEq

/-- Quality-change event payload (`QualityEvent` in `useStream.ts`); only the
fields the handler reads are kept.  `toQ` models the optional `to` field of
the source (`to` is reserved in Lean). -/
structure QualityEvent where
  currentQuality : Nat
  toQ : Option Nat
  totalQuality : Nat
  videoStutter : Nat
deriving DecidableEq

/-- Observable actions of the controller, in execution order. -/
inductive Ev
  | construct (h : Nat)
  | stopDestroy (h : Nat)
  | stopError (h : Nat)
  | onStop
  | attemptStart (r : Nat)
  | attemptListenersOn (h : Nat)
  | loadIssued (h : Nat)
  | firstFrame (h : Nat)
  | listenersRegistered (h : Nat)
  | qualityCbRegistered (h : Nat)
  | onPlay
  | onError
  | clearSnapshot
  | retryWait
deriving DecidableEq

/-- How one load+play attempt's race settles (chosen by the environment). -/
inductive AttemptOutcome
  | firstFrame
  | errorEvent
  | loadReject
  | timeout
deriving DecidableEq

/-- Errors raised inside the attempt path. -/
inductive PlayErr
  | networkConditions
  | firstFrameTimeout
  | playerError
  | loadError
  | playerNotInit
deriving DecidableEq

/-- The controller state: `player.current` (as a handle id), React state
(`snapshot`, `isLoading`, `isInit`, `streamQuality`), the layout store's
`isCanStream` flag, the re-entrancy ref `isDoDestroyAndPlayRunning`
(field `running`), the trigger refs, a counter of attempts so far, the
handles carrying armed steady-state listeners / quality callbacks
(with the `streamQuality` captured at registration), and the event log. -/
structure St where
  player : Option Nat
  nextHandle : Nat
  snapshot : String
  isLoading : Bool
  isInit : Bool
  isCanStream : Bool
  streamQuality : Nat
  running : Bool
  stateRefs : TriggerRefs
  attemptNo : Nat
  armedHandles : List Nat
  qualityCbs : List (Nat × Nat)
  events : List Ev
deriving DecidableEq

/-- Hook configuration: the `streams.primary` URL map (empty string for a
missing key), whether the video element is set, and whether the user-selected
quality is AUTO. -/
structure Cfg where
  primary : String → String
  videoEl : Bool
  settingAuto : Bool

/-- Environment: player status per handle (for `getStatus`), snapshot result
per handle (empty string models a thrown/failed capture), whether stop/destroy
throws, how each attempt's race settles, whether a late first-frame event
arrives after a timeout settlement, and external trigger-ref updates occurring
during the retry sleep (indexed by the upcoming `retryCount`). -/
structure Env where
  status : Nat → PlayerStatus
  snap : Nat → String
  stopFails : Nat → Bool
  outcome : Nat → AttemptOutcome
  lateFirstFrame : Nat → Bool
  refsUpdate : Nat → Option TriggerRefs

/-- `getStreamUrl` (`useStream.ts` lines 182-185): look up
`streams.primary[QUALITIES[streamQuality]]`, defaulting to the empty string. -/
def getStreamUrl (cfg : Cfg) (s : St) : String :=
  if s.streamQuality < QUALITIES.length then cfg.primary (QUALITIES.getD s.streamQuality "")
  else ""

/-- `isPlaying` (lines 131-134): status is PLAYING or PLAYED. -/
def isPlaying (env : Env) (s : St) : Bool :=
  match s.player with
  | none => false
  | some h =>
    match env.status h with
    | PlayerStatus.PLAYING => true
    | PlayerStatus.PLAYED => true
    | _ => false

/-- `getSnapshot` (lines 136-144): empty string when no player or the capture
throws (the catch returns the empty string). -/
def getSnapshot (env : Env) (s : St) : String :=
  match s.player with
  | none => ""
  | some h => env.snap h

/-- `freezeWithSnapshot` (lines 146-151): a no-op when `stateRefs.snapshot`
is non-empty; otherwise capture, set loading, and store only a non-empty
capture. -/
def freezeWithSnapshot (env : Env) (s : St) : St :=
  if s.stateRefs.snapshot ≠ "" then s
  else
    let snap := getSnapshot env s
    let s1 := {s with isLoading := true}
    if snap ≠ "" then {s1 with snapshot := snap} else s1

/-- `stopVideoWithSnapshot` (lines 160-175): freeze a snapshot, then return
early unless a player exists and is playing; otherwise stop+destroy it
(errors caught and logged; the finally-block nulls `player.current` either
way), firing `onStop` only on success. -/
def stopVideoWithSnapshot (env : Env) (s : St) : St :=
  let s1 := freezeWithSnapshot env s
  match s1.player with
  | none => s1
  | some h =>
    if isPlaying env s1 then
      if env.stopFails h then
        {s1 with player := none, events := s1.events ++ [Ev.stopError h]}
      else
        {s1 with player := none, events := s1.events ++ [Ev.stopDestroy h, Ev.onStop]}
    else s1

/-- `registerPlayerCallbacks` (lines 207-232): arm the STOPPED/ENDED/ERROR
steady-state listeners on the handle, and when the setting is AUTO also
register the quality-mode callback, capturing the current `streamQuality`. -/
def registerPlayerCallbacks (cfg : Cfg) (s : St) (h : Nat) : St :=
  let s1 := {s with armedHandles := s.armedHandles ++ [h],
                    events := s.events ++ [Ev.listenersRegistered h]}
  if cfg.settingAuto then
    {s1 with qualityCbs := s1.qualityCbs ++ [(h, s1.streamQuality)],
             events := s1.events ++ [Ev.qualityCbRegistered h]}
  else s1

/-- `loadAndPlayVideo` (lines 234-277): throw a network-conditions error up
front when any of the four flags in `stateRefs` is set (before any listener
registration or load); otherwise register the attempt-local first-frame and
error listeners, issue load, and race against the timeout.  On first-frame:
register the steady-state callbacks and resolve.  On error / rejected load,
or on timeout, reject.  A late first-frame handler firing after a timeout
settlement cannot re-settle the race, but it still runs
`registerPlayerCallbacks` on the (stale) handle. -/
def loadAndPlayVideo (cfg : Cfg) (env : Env) (s : St) (h : Nat) :
    St × Except PlayErr Unit :=
  if s.stateRefs.isExpired || s.stateRefs.isIdleTimeout ||
     s.stateRefs.isMultiSession || s.stateRefs.isMaintenance then
    (s, Except.error PlayErr.networkConditions)
  else
    let n := s.attemptNo
    let s1 := {s with attemptNo := n + 1,
                      events := s.events ++ [Ev.attemptListenersOn h, Ev.loadIssued h]}
    match env.outcome n with
    | AttemptOutcome.firstFrame =>
      let s2 := {s1 with events := s1.events ++ [Ev.firstFrame h]}
      (registerPlayerCallbacks cfg s2 h, Except.ok ())
    | AttemptOutcome.errorEvent => (s1, Except.error PlayErr.playerError)
    | AttemptOutcome.loadReject => (s1, Except.error PlayErr.loadError)
    | AttemptOutcome.timeout =>
      let s2 := if env.lateFirstFrame n then registerPlayerCallbacks cfg s1 h else s1
      (s2, Except.error PlayErr.firstFrameTimeout)

/-- `play` (lines 288-313): resolve the URL, publish `isCanStream`, throw if
no URL or no video element; otherwise construct a fresh player instance
(overwriting `player.current`), load and play, resume with volume, and fire
`onPlay`.  Errors invoke `onError` and re-throw. -/
def play (cfg : Cfg) (env : Env) (s : St) : St × Except PlayErr Unit :=
  let url := getStreamUrl cfg s
  let s1 := {s with isCanStream := url ≠ ""}
  if url = "" || !cfg.videoEl then
    ({s1 with events := s1.events ++ [Ev.onError]}, Except.error PlayErr.playerNotInit)
  else
    let h := s1.nextHandle
    let s2 := {s1 with player := some h, nextHandle := h + 1,
                       events := s1.events ++ [Ev.construct h]}
    let res := loadAndPlayVideo cfg env s2 h
    match res.2 with
    | Except.ok _ =>
      ({res.1 with events := res.1.events ++ [Ev.onPlay]}, Except.ok ())
    | Except.error e =>
      ({res.1 with events := res.1.events ++ [Ev.onError]}, Except.error e)

/-- `shouldSkipPlay` (lines 315-333): skip when no URL, not initialized,
already running, idle-timeout, multi-session, expired, or not visible.
Note: the source does not consult `isMaintenance` here. -/
def shouldSkipPlay (cfg : Cfg) (s : St) : Bool :=
  getStreamUrl cfg s = "" ||
  !s.isInit ||
  s.running ||
  s.stateRefs.isIdleTimeout ||
  s.stateRefs.isMultiSession ||
  s.stateRefs.isExpired ||
  !s.stateRefs.isVisible

/-- External trigger changes landing during the retry sleep, read through
`stateRefs` by the next invocation. -/
def applyRefsUpdate (env : Env) (i : Nat) (s : St) : St :=
  match env.refsUpdate i with
  | none => s
  | some r => {s with stateRefs := r}

/-- Lines 347-355 of `doDestroyAndPlay`: when a player exists, stop it via
`stopVideoWithSnapshot` (its errors are caught and swallowed, and a short
sleep follows) before the attempt. -/
def teardownStep (env : Env) (s : St) : St :=
  if s.player.isSome then stopVideoWithSnapshot env s else s

/-- Lines 358-359 of `doDestroyAndPlay`: log the attempt and enter the
loading state. -/
def attemptPrep (s : St) (r : Nat) : St :=
  {s with isLoading := true, events := s.events ++ [Ev.attemptStart r]}

/-- Body of `doDestroyAndPlay` (lines 341-391), with gas for the
self-recursion through `doDestroyAndPlayRef`.  Skip when ineligible; set the
running flag; tear down an existing player; attempt `play`.  On success:
clear the snapshot, fire `onPlay` (again), clear the running flag, stop
loading.  On failure with retries exhausted: publish `isCanStream := false`
and return (the source leaves the running flag set here).  Otherwise sleep
the retry delay, clear the running flag, and re-invoke with
`retryCount + 1`. -/
def doDestroyAndPlayAux (cfg : Cfg) (env : Env) (maxRetry : Nat) :
    Nat → Nat → St → St
  | 0, _, s => s
  | gas + 1, retryCount, s =>
    if shouldSkipPlay cfg s then s
    else
      let pr := play cfg env (attemptPrep (teardownStep env {s with running := true}) retryCount)
      match pr.2 with
      | Except.ok _ =>
        {pr.1 with snapshot := "",
                   events := pr.1.events ++ [Ev.clearSnapshot, Ev.onPlay],
                   running := false, isLoading := false}
      | Except.error _ =>
        if maxRetry ≤ retryCount then {pr.1 with isCanStream := false}
        else
          doDestroyAndPlayAux cfg env maxRetry gas (retryCount + 1)
            (applyRefsUpdate env (retryCount + 1)
              {pr.1 with events := pr.1.events ++ [Ev.retryWait], running := false})

/-- `doDestroyAndPlay`: the recursion stops as soon as `retryCount` reaches
`maxRetry`, so gas `maxRetry - retryCount + 1` always suffices. -/
def doDestroyAndPlay (cfg : Cfg) (env : Env) (retryCount maxRetry : Nat) (s : St) : St :=
  doDestroyAndPlayAux cfg env maxRetry (maxRetry - retryCount + 1) retryCount s

/-- An entry trigger (visibility/network effect, stream-rotation effect,
quality effect, or an armed STOPPED/ENDED/ERROR listener) invokes
`doDestroyAndPlayRef.current?.()` with no arguments: `retryCount` restarts
at 0. -/
def entryTrigger (cfg : Cfg) (env : Env) (maxRetry : Nat) (s : St) : St :=
  doDestroyAndPlay cfg env 0 maxRetry s

/-- An armed steady-state listener firing (lines 213-224): freeze a snapshot,
then re-invoke `doDestroyAndPlay` from `retryCount = 0`. -/
def steadyListenerFire (cfg : Cfg) (env : Env) (maxRetry : Nat) (s : St) : St :=
  entryTrigger cfg env maxRetry (freezeWithSnapshot env s)

/-- The `streamQuality` captured by the newest quality-mode callback armed on
handle `h`: `p.on` appends handlers and nothing unsubscribes them, so an
event fires every armed handler in registration order and the last
`setStreamQuality` write wins. -/
def lastQualityCbOn (h : Nat) (s : St) : Option Nat :=
  ((s.qualityCbs.filter (fun c => c.1 = h)).map (fun c => c.2)).getLast?

/-- One QUALITY_CHANGE event arriving from handle `h`: the handlers armed by
`regQualityModeCallback` (lines 187-205) plus the React effects it can
trigger.  If no callback is armed on `h`, nothing fires.  Each armed handler
returns unless the setting is AUTO and the player is currently playing;
otherwise it calls `setStreamQuality` with the event's `to` when present,
else with the `streamQuality` captured at its registration — all handlers
fire, so the committed value is the newest-registered callback's write
(`lastQualityCbOn`).  Committing an unchanged tier is a no-op (React bails
out and no effect re-runs).  On a changed tier, the quality effect
(lines 447-462, declared first) re-runs and — AUTO, video element set, live
player — re-registers a fresh callback on `player.current` capturing the
committed tier (line 452), and then the `streamQuality` effect
(lines 465-467) re-invokes `doDestroyAndPlay` with no arguments. -/
def qualityEventStep (cfg : Cfg) (env : Env) (maxRetry : Nat) (h : Nat)
    (ev : QualityEvent) (s : St) : St :=
  match lastQualityCbOn h s with
  | none => s
  | some lastCap =>
    if !cfg.settingAuto then s
    else if !isPlaying env s then s
    else
      let newQ := match ev.toQ with
        | some t => t
        | none => lastCap
      if newQ = s.streamQuality then s
      else
        let s1 := {s with streamQuality := newQ}
        let s2 :=
          if cfg.videoEl then
            match s1.player with
            | some p =>
              {s1 with qualityCbs := s1.qualityCbs ++ [(p, s1.streamQuality)],
                       events := s1.events ++ [Ev.qualityCbRegistered p]}
            | none => s1
          else s1
        entryTrigger cfg env maxRetry s2

/-! ## Concrete scenarios -/

/-- Trigger refs with full eligibility: visible, no network-health flag set,
no snapshot held. -/
def refsOk : TriggerRefs := ⟨true, false, false, false, false, ""⟩

/-- Configuration with a single URL for the `hd` tier, the video element set,
and manual quality. -/
def cfgHD : Cfg :=
  { primary := fun k => if k = "hd" then "u" else "", videoEl := true, settingAuto := false }

/-- Post-initialization idle state: no player yet, `hd` tier selected,
controller initialized, nothing in flight. -/
def s0 : St :=
  { player := none, nextHandle := 0, snapshot := "", isLoading := true, isInit := true,
    isCanStream := false, streamQuality := 3, running := false, stateRefs := refsOk,
    attemptNo := 0, armedHandles := [], qualityCbs := [], events := [] }

/-- Benign environment: every attempt reaches first frame; handles report
STOPPED when queried; snapshot capture fails (returns the empty string);
stop/destroy succeeds; no late events; no external trigger changes. -/
def envOk : Env :=
  { status := fun _ => PlayerStatus.STOPPED, snap := fun _ => "", stopFails := fun _ => false,
    outcome := fun _ => AttemptOutcome.firstFrame, lateFirstFrame := fun _ => false,
    refsUpdate := fun _ => none }

/-- Environment in which attempt 0's load rejects (the player it constructed
is left in STOPPED status) and every later attempt succeeds. -/
def envC1 : Env :=
  { envOk with
    outcome := fun n => if n = 0 then AttemptOutcome.loadReject else AttemptOutcome.firstFrame }

/-- Environment in which every attempt's load rejects. -/
def envF : Env := { envOk with outcome := fun _ => AttemptOutcome.loadReject }

/-- The state after retries exhaust (`maxRetry = 0`, single failing attempt)
from the idle state. -/
def run3 : St := doDestroyAndPlay cfgHD envF 0 0 s0

/-- Fully eligible state except that the maintenance flag is set. -/
def sM : St := { s0 with stateRefs := { refsOk with isMaintenance := true } }

/-- Environment for the timeout/late-first-frame scenario: attempt 0 times
out and its first-frame event arrives late (after the timeout settled the
race); every later attempt succeeds; handle 1 reports PLAYING; snapshot
capture yields an image. -/
def env8 : Env :=
  { envOk with
    outcome := fun n => if n = 0 then AttemptOutcome.timeout else AttemptOutcome.firstFrame,
    lateFirstFrame := fun n => n = 0,
    status := fun h => if h = 1 then PlayerStatus.PLAYING else PlayerStatus.STOPPED,
    snap := fun _ => "img" }

/-- Same environment with no late first-frame event. -/
def env8' : Env := { env8 with lateFirstFrame := fun _ => false }

/-- Attempt 0 times out (late first-frame arrives), the retry succeeds and
handle 1 plays. -/
def run8 : St := doDestroyAndPlay cfgHD env8 0 5 s0

/-- AUTO-quality configuration whose URL map has a URL for tier 1 (`me`) but
none for tier 2 (`hi`). -/
def cfg9 : Cfg :=
  { primary := fun k => if k = "me" then "u1" else "", videoEl := true, settingAuto := true }

/-- Environment where handle 1 reports PLAYING and later handles succeed. -/
def env9 : Env :=
  { envOk with
    status := fun h => if h = 1 then PlayerStatus.PLAYING else PlayerStatus.STOPPED,
    snap := fun _ => "img" }

/-- Steady playback of handle 1 at tier 1, whose quality-mode callback was
registered while the active tier was 1 (captured tier 1). -/
def s9 : St :=
  { s0 with player := some 1, nextHandle := 2, streamQuality := 1, qualityCbs := [(1, 1)] }

/-- Quality-change event carrying target tier 2. -/
def ev1 : QualityEvent := ⟨1, some 2, 4, 0⟩

/-- Quality-change event with no target tier. -/
def ev2 : QualityEvent := ⟨2, none, 4, 0⟩

/-- After `ev1` from handle 1: the active tier becomes 2 and the quality
effect re-registers a fresh callback on handle 1 capturing tier 2; the
triggered re-evaluation short-circuits (no URL for tier 2), so handle 1
keeps playing. -/
def step1 : St := qualityEventStep cfg9 env9 3 1 ev1 s9

/-- After `ev2` (no target tier) from handle 1 on `step1`: the
newest-registered callback captured tier 2, so the last write re-commits the
current tier — a no-op. -/
def step2 : St := qualityEventStep cfg9 env9 3 1 ev2 step1

/-! ## Trace-shape helpers -/

/-- Teardown events: the only observable actions `stopVideoWithSnapshot` can
produce. -/
def benignEv : Ev → Bool
  | Ev.stopDestroy _ => true
  | Ev.stopError _ => true
  | Ev.onStop => true
  | _ => false

/-- Recognizer for attempt-start events. -/
def isAttemptStartEv : Ev → Bool
  | Ev.attemptStart _ => true
  | _ => false

/-- The exact event suffix of a successful attempt at retry count `r`
constructing handle `n` (after any teardown events): attempt start, handle
construction, attempt-local listeners, load, first frame, steady-state
listener registration (plus the quality callback in AUTO mode), the `onPlay`
fired by `play`, the snapshot clear, and the second `onPlay` fired by
`doDestroyAndPlay`. -/
def successCore (r n : Nat) (auto : Bool) : List Ev :=
  [Ev.attemptStart r, Ev.construct n, Ev.attemptListenersOn n, Ev.loadIssued n] ++
  Ev.firstFrame n ::
    ([Ev.listenersRegistered n] ++ (if auto then [Ev.qualityCbRegistered n] else []) ++
     [Ev.onPlay, Ev.clearSnapshot, Ev.onPlay])

/-- The state after one failed (load-rejected) attempt at retry count `r`
whose teardown was a no-op (snapshot already held, prior handle not playing),
just before the next recursive invocation. -/
def failRound (s : St) (r : Nat) : St :=
  {s with running := false, isLoading := true, isCanStream := true,
          player := some s.nextHandle, nextHandle := s.nextHandle + 1,
          attemptNo := s.attemptNo + 1,
          events := s.events ++ [Ev.attemptStart r, Ev.construct s.nextHandle,
                                 Ev.attemptListenersOn s.nextHandle, Ev.loadIssued s.nextHandle,
                                 Ev.onError, Ev.retryWait]}

/-! ## Witness inputs -/

/-- Fully eligible state except that visibility is false. -/
def sHidden : St := { s0 with stateRefs := { refsOk with isVisible := false } }

/-- State holding a frozen snapshot image (both in React state and in the
synced `stateRefs`). -/
def sHeld : St :=
  { s0 with snapshot := "img", stateRefs := { refsOk with snapshot := "img" } }

/-- State whose trigger refs report an expired session. -/
def sExp : St := { s0 with stateRefs := { refsOk with isExpired := true } }

/-- Environment whose attempt 0 times out with a late first-frame event and
whose later attempts succeed, with failing snapshot captures. -/
def envT : Env :=
  { envOk with
    outcome := fun n => if n = 0 then AttemptOutcome.timeout else AttemptOutcome.firstFrame,
    lateFirstFrame := fun n => n = 0 }

/-- Environment whose attempts 0 and 1 fail (load rejection) and whose
attempt 2 succeeds. -/
def env2F : Env :=
  { envOk with
    outcome := fun n => if n < 2 then AttemptOutcome.loadReject else AttemptOutcome.firstFrame }

/-! ## Helper lemmas -/

theorem freezeWithSnapshot_of_held {env : Env} {s : St} (h : s.stateRefs.snapshot ≠ "") :
    freezeWithSnapshot env s = s := by
  unfold freezeWithSnapshot
  simp [h]

@[simp] theorem freeze_events (env : Env) (s : St) :
    (freezeWithSnapshot env s).events = s.events := by
  simp only [freezeWithSnapshot]
  repeat' split
  all_goals rfl

@[simp] theorem freeze_player (env : Env) (s : St) :
    (freezeWithSnapshot env s).player = s.player := by
  simp only [freezeWithSnapshot]
  repeat' split
  all_goals rfl

@[simp] theorem freeze_stateRefs (env : Env) (s : St) :
    (freezeWithSnapshot env s).stateRefs = s.stateRefs := by
  simp only [freezeWithSnapshot]
  repeat' split
  all_goals rfl

@[simp] theorem freeze_nextHandle (env : Env) (s : St) :
    (freezeWithSnapshot env s).nextHandle = s.nextHandle := by
  simp only [freezeWithSnapshot]
  repeat' split
  all_goals rfl

@[simp] theorem freeze_attemptNo (env : Env) (s : St) :
    (freezeWithSnapshot env s).attemptNo = s.attemptNo := by
  simp only [freezeWithSnapshot]
  repeat' split
  all_goals rfl

@[simp] theorem freeze_streamQuality (env : Env) (s : St) :
    (freezeWithSnapshot env s).streamQuality = s.streamQuality := by
  simp only [freezeWithSnapshot]
  repeat' split
  all_goals rfl

@[simp] theorem freeze_isInit (env : Env) (s : St) :
    (freezeWithSnapshot env s).isInit = s.isInit := by
  simp only [freezeWithSnapshot]
  repeat' split
  all_goals rfl

@[simp] theorem freeze_running (env : Env) (s : St) :
    (freezeWithSnapshot env s).running = s.running := by
  simp only [freezeWithSnapshot]
  repeat' split
  all_goals rfl

@[simp] theorem freeze_armedHandles (env : Env) (s : St) :
    (freezeWithSnapshot env s).armedHandles = s.armedHandles := by
  simp only [freezeWithSnapshot]
  repeat' split
  all_goals rfl

@[simp] theorem freeze_qualityCbs (env : Env) (s : St) :
    (freezeWithSnapshot env s).qualityCbs = s.qualityCbs := by
  simp only [freezeWithSnapshot]
  repeat' split
  all_goals rfl

@[simp] theorem freeze_isCanStream (env : Env) (s : St) :
    (freezeWithSnapshot env s).isCanStream = s.isCanStream := by
  simp only [freezeWithSnapshot]
  repeat' split
  all_goals rfl

@[simp] theorem stopVideo_nextHandle (env : Env) (s : St) :
    (stopVideoWithSnapshot env s).nextHandle = s.nextHandle := by
  simp only [stopVideoWithSnapshot]
  repeat' split
  all_goals simp

@[simp] theorem stopVideo_attemptNo (env : Env) (s : St) :
    (stopVideoWithSnapshot env s).attemptNo = s.attemptNo := by
  simp only [stopVideoWithSnapshot]
  repeat' split
  all_goals simp

@[simp] theorem stopVideo_stateRefs (env : Env) (s : St) :
    (stopVideoWithSnapshot env s).stateRefs = s.stateRefs := by
  simp only [stopVideoWithSnapshot]
  repeat' split
  all_goals simp

@[simp] theorem stopVideo_streamQuality (env : Env) (s : St) :
    (stopVideoWithSnapshot env s).streamQuality = s.streamQuality := by
  simp only [stopVideoWithSnapshot]
  repeat' split
  all_goals simp

@[simp] theorem stopVideo_isInit (env : Env) (s : St) :
    (stopVideoWithSnapshot env s).isInit = s.isInit := by
  simp only [stopVideoWithSnapshot]
  repeat' split
  all_goals simp

@[simp] theorem stopVideo_running (env : Env) (s : St) :
    (stopVideoWithSnapshot env s).running = s.running := by
  simp only [stopVideoWithSnapshot]
  repeat' split
  all_goals simp

@[simp] theorem stopVideo_armedHandles (env : Env) (s : St) :
    (stopVideoWithSnapshot env s).armedHandles = s.armedHandles := by
  simp only [stopVideoWithSnapshot]
  repeat' split
  all_goals simp

@[simp] theorem stopVideo_qualityCbs (env : Env) (s : St) :
    (stopVideoWithSnapshot env s).qualityCbs = s.qualityCbs := by
  simp only [stopVideoWithSnapshot]
  repeat' split
  all_goals simp

@[simp] theorem stopVideo_isCanStream (env : Env) (s : St) :
    (stopVideoWithSnapshot env s).isCanStream = s.isCanStream := by
  simp only [stopVideoWithSnapshot]
  repeat' split
  all_goals simp

theorem stopVideo_events (env : Env) (s : St) :
    ∃ l, (stopVideoWithSnapshot env s).events = s.events ++ l ∧ l.all benignEv = true := by
  simp only [stopVideoWithSnapshot]
  split
  · exact ⟨[], by simp, rfl⟩
  · rename_i k hk
    split
    · split
      · exact ⟨[Ev.stopError k], by simp, rfl⟩
      · exact ⟨[Ev.stopDestroy k, Ev.onStop], by simp, rfl⟩
    · exact ⟨[], by simp, rfl⟩

theorem not_mem_of_benign {l : List Ev} (hl : l.all benignEv = true) {e : Ev}
    (he : benignEv e = false) : e ∉ l := by
  intro hm
  rw [List.all_eq_true] at hl
  have := hl e hm
  rw [he] at this
  exact Bool.noConfusion this

theorem count_eq_zero_of_benign {l : List Ev} (hl : l.all benignEv = true) {e : Ev}
    (he : benignEv e = false) : l.count e = 0 :=
  List.count_eq_zero.mpr (not_mem_of_benign hl he)

theorem filter_attemptStart_of_benign {l : List Ev} (hl : l.all benignEv = true) :
    l.filter isAttemptStartEv = [] := by
  rw [List.filter_eq_nil_iff]
  intro e hm
  rw [List.all_eq_true] at hl
  have hb := hl e hm
  cases e <;> simp_all [benignEv, isAttemptStartEv]

theorem getStreamUrl_congr {cfg : Cfg} {s s' : St} (h : s'.streamQuality = s.streamQuality) :
    getStreamUrl cfg s' = getStreamUrl cfg s := by
  unfold getStreamUrl
  rw [h]

theorem shouldSkipPlay_congr {cfg : Cfg} {s' s : St}
    (hq : s'.streamQuality = s.streamQuality) (hi : s'.isInit = s.isInit)
    (hr : s'.running = s.running) (hrefs : s'.stateRefs = s.stateRefs) :
    shouldSkipPlay cfg s' = shouldSkipPlay cfg s := by
  unfold shouldSkipPlay getStreamUrl
  rw [hq, hi, hr, hrefs]

/-- Full characterization of `play` when the attempt reaches first frame. -/
theorem play_firstFrame (cfg : Cfg) (env : Env) (s : St)
    (hurl : getStreamUrl cfg s ≠ "") (hvid : cfg.videoEl = true)
    (hexp : s.stateRefs.isExpired = false) (hidle : s.stateRefs.isIdleTimeout = false)
    (hmulti : s.stateRefs.isMultiSession = false) (hmaint : s.stateRefs.isMaintenance = false)
    (hout : env.outcome s.attemptNo = AttemptOutcome.firstFrame) :
    play cfg env s =
      ({s with isCanStream := true, player := some s.nextHandle, nextHandle := s.nextHandle + 1,
               attemptNo := s.attemptNo + 1,
               armedHandles := s.armedHandles ++ [s.nextHandle],
               qualityCbs := if cfg.settingAuto then
                   s.qualityCbs ++ [(s.nextHandle, s.streamQuality)]
                 else s.qualityCbs,
               events := s.events ++
                 ([Ev.construct s.nextHandle, Ev.attemptListenersOn s.nextHandle,
                   Ev.loadIssued s.nextHandle, Ev.firstFrame s.nextHandle,
                   Ev.listenersRegistered s.nextHandle] ++
                  (if cfg.settingAuto then [Ev.qualityCbRegistered s.nextHandle] else []) ++
                  [Ev.onPlay])},
       Except.ok ()) := by
  unfold play loadAndPlayVideo registerPlayerCallbacks
  simp only [hexp, hidle, hmulti, hmaint, hout, hvid]
  simp [hurl]
  split <;> simp

/-- Full characterization of `play` when the load rejects. -/
theorem play_loadReject (cfg : Cfg) (env : Env) (s : St)
    (hurl : getStreamUrl cfg s ≠ "") (hvid : cfg.videoEl = true)
    (hexp : s.stateRefs.isExpired = false) (hidle : s.stateRefs.isIdleTimeout = false)
    (hmulti : s.stateRefs.isMultiSession = false) (hmaint : s.stateRefs.isMaintenance = false)
    (hout : env.outcome s.attemptNo = AttemptOutcome.loadReject) :
    play cfg env s =
      ({s with isCanStream := true, player := some s.nextHandle, nextHandle := s.nextHandle + 1,
               attemptNo := s.attemptNo + 1,
               events := s.events ++
                 [Ev.construct s.nextHandle, Ev.attemptListenersOn s.nextHandle,
                  Ev.loadIssued s.nextHandle, Ev.onError]},
       Except.error PlayErr.loadError) := by
  unfold play loadAndPlayVideo
  simp only [hexp, hidle, hmulti, hmaint, hout, hvid]
  simp [hurl]

@[simp] theorem play_streamQuality (cfg : Cfg) (env : Env) (s : St) :
    ((play cfg env s).1).streamQuality = s.streamQuality := by
  simp only [play, loadAndPlayVideo, registerPlayerCallbacks]
  repeat' split
  all_goals simp

@[simp] theorem play_stateRefs (cfg : Cfg) (env : Env) (s : St) :
    ((play cfg env s).1).stateRefs = s.stateRefs := by
  simp only [play, loadAndPlayVideo, registerPlayerCallbacks]
  repeat' split
  all_goals simp

@[simp] theorem play_isInit (cfg : Cfg) (env : Env) (s : St) :
    ((play cfg env s).1).isInit = s.isInit := by
  simp only [play, loadAndPlayVideo, registerPlayerCallbacks]
  repeat' split
  all_goals simp

theorem play_events_mono (cfg : Cfg) (env : Env) (s : St) :
    ∃ l, ((play cfg env s).1).events = s.events ++ l := by
  simp only [play, loadAndPlayVideo, registerPlayerCallbacks]
  repeat' split
  all_goals simp

@[simp] theorem applyRefsUpdate_events (env : Env) (i : Nat) (s : St) :
    (applyRefsUpdate env i s).events = s.events := by
  simp only [applyRefsUpdate]
  split
  all_goals rfl

@[simp] theorem applyRefsUpdate_streamQuality (env : Env) (i : Nat) (s : St) :
    (applyRefsUpdate env i s).streamQuality = s.streamQuality := by
  simp only [applyRefsUpdate]
  split
  all_goals rfl

theorem teardown_events (env : Env) (s : St) :
    ∃ l, (teardownStep env s).events = s.events ++ l ∧ l.all benignEv = true := by
  unfold teardownStep
  split
  · exact stopVideo_events env s
  · exact ⟨[], by simp, rfl⟩

@[simp] theorem teardown_nextHandle (env : Env) (s : St) :
    (teardownStep env s).nextHandle = s.nextHandle := by
  unfold teardownStep
  split
  all_goals simp

@[simp] theorem teardown_attemptNo (env : Env) (s : St) :
    (teardownStep env s).attemptNo = s.attemptNo := by
  unfold teardownStep
  split
  all_goals simp

@[simp] theorem teardown_stateRefs (env : Env) (s : St) :
    (teardownStep env s).stateRefs = s.stateRefs := by
  unfold teardownStep
  split
  all_goals simp

@[simp] theorem teardown_streamQuality (env : Env) (s : St) :
    (teardownStep env s).streamQuality = s.streamQuality := by
  unfold teardownStep
  split
  all_goals simp

@[simp] theorem teardown_isInit (env : Env) (s : St) :
    (teardownStep env s).isInit = s.isInit := by
  unfold teardownStep
  split
  all_goals simp

@[simp] theorem teardown_running (env : Env) (s : St) :
    (teardownStep env s).running = s.running := by
  unfold teardownStep
  split
  all_goals simp

@[simp] theorem attemptPrep_streamQuality (s : St) (r : Nat) :
    (attemptPrep s r).streamQuality = s.streamQuality := rfl

@[simp] theorem attemptPrep_stateRefs (s : St) (r : Nat) :
    (attemptPrep s r).stateRefs = s.stateRefs := rfl

@[simp] theorem attemptPrep_nextHandle (s : St) (r : Nat) :
    (attemptPrep s r).nextHandle = s.nextHandle := rfl

@[simp] theorem attemptPrep_attemptNo (s : St) (r : Nat) :
    (attemptPrep s r).attemptNo = s.attemptNo := rfl

@[simp] theorem attemptPrep_isInit (s : St) (r : Nat) :
    (attemptPrep s r).isInit = s.isInit := rfl

@[simp] theorem attemptPrep_events (s : St) (r : Nat) :
    (attemptPrep s r).events = s.events ++ [Ev.attemptStart r] := rfl

/-- `doDestroyAndPlay` never changes the selected quality tier. -/
theorem doDestroyAndPlayAux_streamQuality (cfg : Cfg) (env : Env) (m : Nat) :
    ∀ gas r s, (doDestroyAndPlayAux cfg env m gas r s).streamQuality = s.streamQuality := by
  intro gas
  induction gas with
  | zero => intro r s; rfl
  | succ g ih =>
    intro r s
    simp only [doDestroyAndPlayAux]
    repeat' split
    all_goals simp [ih]

theorem doDestroyAndPlay_streamQuality (cfg : Cfg) (env : Env) (r m : Nat) (s : St) :
    (doDestroyAndPlay cfg env r m s).streamQuality = s.streamQuality :=
  doDestroyAndPlayAux_streamQuality cfg env m (m - r + 1) r s

/-- `doDestroyAndPlay` only ever appends to the event log. -/
theorem doDestroyAndPlayAux_events_mono (cfg : Cfg) (env : Env) (m : Nat) :
    ∀ gas r s, ∃ l, (doDestroyAndPlayAux cfg env m gas r s).events = s.events ++ l := by
  intro gas
  induction gas with
  | zero => intro r s; exact ⟨[], by simp [doDestroyAndPlayAux]⟩
  | succ g ih =>
    intro r s
    by_cases hskip : shouldSkipPlay cfg s
    · exact ⟨[], by simp [doDestroyAndPlayAux, hskip]⟩
    obtain ⟨lt, hlt, -⟩ := teardown_events env {s with running := true}
    obtain ⟨lp, hlp⟩ :=
      play_events_mono cfg env (attemptPrep (teardownStep env {s with running := true}) r)
    have hsPe : ((play cfg env
        (attemptPrep (teardownStep env {s with running := true}) r)).1).events
        = s.events ++ (lt ++ ([Ev.attemptStart r] ++ lp)) := by
      rw [hlp, attemptPrep_events, hlt]
      simp
    rcases hp : (play cfg env
        (attemptPrep (teardownStep env {s with running := true}) r)).2 with e | u
    · by_cases hm : m ≤ r
      · refine ⟨lt ++ ([Ev.attemptStart r] ++ lp), ?_⟩
        simp only [doDestroyAndPlayAux, hskip, Bool.false_eq_true, if_false, hp, if_pos hm]
        simp [hsPe]
      · obtain ⟨lr, hlr⟩ := ih (r + 1)
          (applyRefsUpdate env (r + 1)
            {(play cfg env
               (attemptPrep (teardownStep env {s with running := true}) r)).1 with
              events := ((play cfg env
                (attemptPrep (teardownStep env {s with running := true}) r)).1).events ++
                [Ev.retryWait], running := false})
        refine ⟨lt ++ ([Ev.attemptStart r] ++ (lp ++ ([Ev.retryWait] ++ lr))), ?_⟩
        simp only [doDestroyAndPlayAux, hskip, Bool.false_eq_true, if_false, hp, if_neg hm]
        rw [hlr]
        simp [hsPe]
    · refine ⟨lt ++ ([Ev.attemptStart r] ++ (lp ++ [Ev.clearSnapshot, Ev.onPlay])), ?_⟩
      simp only [doDestroyAndPlayAux, hskip, Bool.false_eq_true, if_false, hp]
      simp [hsPe]

/-- Ineligibility at call time makes any invocation a no-op: every retry
re-checks `shouldSkipPlay` on the current state before attempting. -/
theorem doDestroyAndPlay_skip (cfg : Cfg) (env : Env) (r m : Nat) (s : St)
    (h : shouldSkipPlay cfg s = true) :
    doDestroyAndPlay cfg env r m s = s := by
  unfold doDestroyAndPlay
  simp only [doDestroyAndPlayAux]
  simp [h]

/-- An eligible invocation always logs its attempt start. -/
theorem attemptStart_mem (cfg : Cfg) (env : Env) (r m : Nat) (s : St)
    (hskip : shouldSkipPlay cfg s = false) :
    Ev.attemptStart r ∈ (doDestroyAndPlay cfg env r m s).events := by
  unfold doDestroyAndPlay
  obtain ⟨lp, hlp⟩ :=
    play_events_mono cfg env (attemptPrep (teardownStep env {s with running := true}) r)
  have hmem : Ev.attemptStart r ∈ ((play cfg env
      (attemptPrep (teardownStep env {s with running := true}) r)).1).events := by
    rw [hlp, attemptPrep_events]
    simp
  rcases hp : (play cfg env
      (attemptPrep (teardownStep env {s with running := true}) r)).2 with e | u
  · by_cases hm : m ≤ r
    · simp only [doDestroyAndPlayAux, hskip, Bool.false_eq_true, if_false, hp, if_pos hm]
      simpa using hmem
    · obtain ⟨lr, hlr⟩ := doDestroyAndPlayAux_events_mono cfg env m (m - r) (r + 1)
        (applyRefsUpdate env (r + 1)
          {(play cfg env
             (attemptPrep (teardownStep env {s with running := true}) r)).1 with
            events := ((play cfg env
              (attemptPrep (teardownStep env {s with running := true}) r)).1).events ++
              [Ev.retryWait], running := false})
      simp only [doDestroyAndPlayAux, hskip, Bool.false_eq_true, if_false, hp, if_neg hm]
      rw [hlr]
      simp [hmem]
  · simp only [doDestroyAndPlayAux, hskip, Bool.false_eq_true, if_false, hp]
    simp [hmem]

/-- Full trace characterization of a successful eligible invocation: some
benign teardown events, then exactly the `successCore` suffix. -/
theorem doDestroyAndPlay_success_events (cfg : Cfg) (env : Env) (r m : Nat) (s : St)
    (hskip : shouldSkipPlay cfg s = false)
    (hurl : getStreamUrl cfg s ≠ "") (hvid : cfg.videoEl = true)
    (hexp : s.stateRefs.isExpired = false) (hidle : s.stateRefs.isIdleTimeout = false)
    (hmulti : s.stateRefs.isMultiSession = false) (hmaint : s.stateRefs.isMaintenance = false)
    (hout : env.outcome s.attemptNo = AttemptOutcome.firstFrame) :
    ∃ td, (doDestroyAndPlay cfg env r m s).events
        = s.events ++ (td ++ successCore r s.nextHandle cfg.settingAuto)
      ∧ td.all benignEv = true := by
  obtain ⟨lt, hlt, hben⟩ := teardown_events env {s with running := true}
  have hq : (attemptPrep (teardownStep env {s with running := true}) r).streamQuality
      = s.streamQuality := by simp
  have hrefs : (attemptPrep (teardownStep env {s with running := true}) r).stateRefs
      = s.stateRefs := by simp
  have hno : (attemptPrep (teardownStep env {s with running := true}) r).attemptNo
      = s.attemptNo := by simp
  have hplay := play_firstFrame cfg env
      (attemptPrep (teardownStep env {s with running := true}) r)
      (by rw [getStreamUrl_congr hq]; exact hurl) hvid
      (by rw [hrefs]; exact hexp) (by rw [hrefs]; exact hidle)
      (by rw [hrefs]; exact hmulti) (by rw [hrefs]; exact hmaint)
      (by rw [hno]; exact hout)
  refine ⟨lt, ?_, hben⟩
  unfold doDestroyAndPlay
  simp only [doDestroyAndPlayAux, hskip, Bool.false_eq_true, if_false]
  rw [hplay]
  simp [successCore, hlt, List.append_assoc]

/-- One-step unfolding of `doDestroyAndPlayAux` with an opaque remaining-gas
variable, so a rewrite unrolls exactly one round. -/
theorem doDestroyAndPlayAux_succ (cfg : Cfg) (env : Env) (m gas r : Nat) (s : St) :
    doDestroyAndPlayAux cfg env m (gas + 1) r s =
      if shouldSkipPlay cfg s then s
      else
        match (play cfg env (attemptPrep (teardownStep env {s with running := true}) r)).2 with
        | Except.ok _ =>
          {(play cfg env (attemptPrep (teardownStep env {s with running := true}) r)).1 with
            snapshot := "",
            events := ((play cfg env
              (attemptPrep (teardownStep env {s with running := true}) r)).1).events ++
              [Ev.clearSnapshot, Ev.onPlay],
            running := false, isLoading := false}
        | Except.error _ =>
          if m ≤ r then
            {(play cfg env (attemptPrep (teardownStep env {s with running := true}) r)).1 with
              isCanStream := false}
          else
            doDestroyAndPlayAux cfg env m gas (r + 1)
              (applyRefsUpdate env (r + 1)
                {(play cfg env
                   (attemptPrep (teardownStep env {s with running := true}) r)).1 with
                  events := ((play cfg env
                    (attemptPrep (teardownStep env {s with running := true}) r)).1).events ++
                    [Ev.retryWait], running := false}) := by
  rfl

/-- When a snapshot is already held and the handle is not playing,
`stopVideoWithSnapshot` changes nothing (and in particular does not stop or
destroy the handle). -/
theorem stopVideo_id_of_held_not_playing (env : Env) (s : St)
    (hsnap : s.stateRefs.snapshot ≠ "") (hnp : isPlaying env s = false) :
    stopVideoWithSnapshot env s = s := by
  unfold stopVideoWithSnapshot
  rw [freezeWithSnapshot_of_held hsnap]
  rcases hsome : s.player with _ | k
  · simp [hsome]
  · simp [hsome, hnp]

theorem teardown_id_of_held_not_playing (env : Env) (s : St)
    (hsnap : s.stateRefs.snapshot ≠ "") (hnp : isPlaying env s = false) :
    teardownStep env s = s := by
  unfold teardownStep
  split
  · exact stopVideo_id_of_held_not_playing env s hsnap hnp
  · rfl

/-- One failed (load-rejected) round of an eligible invocation whose teardown
is a no-op (snapshot held, prior handle not playing), followed by the
recursive re-invocation at `retryCount + 1`. -/
theorem doDestroyAndPlay_failRound (cfg : Cfg) (env : Env) (r m : Nat) (s : St)
    (hskip : shouldSkipPlay cfg s = false)
    (hurl : getStreamUrl cfg s ≠ "") (hvid : cfg.videoEl = true)
    (hexp : s.stateRefs.isExpired = false) (hidle : s.stateRefs.isIdleTimeout = false)
    (hmulti : s.stateRefs.isMultiSession = false) (hmaint : s.stateRefs.isMaintenance = false)
    (hsnap : s.stateRefs.snapshot ≠ "")
    (hnp : isPlaying env s = false)
    (hout : env.outcome s.attemptNo = AttemptOutcome.loadReject)
    (hupd : env.refsUpdate (r + 1) = none)
    (hm : r < m) :
    doDestroyAndPlay cfg env r m s = doDestroyAndPlay cfg env (r + 1) m (failRound s r) := by
  have htd : teardownStep env {s with running := true} = {s with running := true} :=
    teardown_id_of_held_not_playing env _ hsnap hnp
  have hq : (attemptPrep ({s with running := true} : St) r).streamQuality
      = s.streamQuality := by simp [attemptPrep]
  have hrefs : (attemptPrep ({s with running := true} : St) r).stateRefs
      = s.stateRefs := by simp [attemptPrep]
  have hno : (attemptPrep ({s with running := true} : St) r).attemptNo
      = s.attemptNo := by simp [attemptPrep]
  have hplay := play_loadReject cfg env (attemptPrep ({s with running := true} : St) r)
      (by rw [getStreamUrl_congr hq]; exact hurl) hvid
      (by rw [hrefs]; exact hexp) (by rw [hrefs]; exact hidle)
      (by rw [hrefs]; exact hmulti) (by rw [hrefs]; exact hmaint)
      (by rw [hno]; exact hout)
  have hgas : m - r + 1 = (m - (r + 1) + 1) + 1 := by omega
  unfold doDestroyAndPlay
  rw [hgas, doDestroyAndPlayAux_succ]
  rw [if_neg (by simp [hskip])]
  rw [htd, hplay]
  dsimp only
  rw [if_neg (by omega : ¬ m ≤ r)]
  congr 1
  simp [applyRefsUpdate, hupd, failRound, attemptPrep]

/-- Retry-chain characterization: from an eligible, snapshot-holding state
whose handles are never playing, with `j` consecutive load failures followed
by a success and no external trigger changes, the invocation at `retryCount
= r` produces exactly the attempt starts `r, r + 1, …, r + j` (each failure
separated from the next attempt by exactly one retry-delay wait). -/
theorem retry_chain (cfg : Cfg) (env : Env) (m : Nat)
    (hstat : ∀ k, env.status k = PlayerStatus.STOPPED)
    (hupd : ∀ i, env.refsUpdate i = none)
    (hvid : cfg.videoEl = true) :
    ∀ j r s, s.stateRefs.isVisible = true → s.stateRefs.isIdleTimeout = false →
      s.stateRefs.isMultiSession = false → s.stateRefs.isExpired = false →
      s.stateRefs.isMaintenance = false → s.isInit = true → s.running = false →
      getStreamUrl cfg s ≠ "" → s.stateRefs.snapshot ≠ "" →
      (∀ i, i < j → env.outcome (s.attemptNo + i) = AttemptOutcome.loadReject) →
      env.outcome (s.attemptNo + j) = AttemptOutcome.firstFrame →
      r + j ≤ m →
      ∃ l, (doDestroyAndPlay cfg env r m s).events = s.events ++ l ∧
        l.filter isAttemptStartEv
          = (List.range (j + 1)).map (fun i => Ev.attemptStart (r + i)) ∧
        l.count Ev.retryWait = j := by
  intro j
  induction j with
  | zero =>
    intro r s hvis hidle hmulti hexp hmaint hinit hrun hurl hsnap hfail hsucc hjm
    have hskip : shouldSkipPlay cfg s = false := by
      simp [shouldSkipPlay, hurl, hinit, hrun, hidle, hmulti, hexp, hvis]
    obtain ⟨td, htd, hben⟩ := doDestroyAndPlay_success_events cfg env r m s hskip hurl hvid
      hexp hidle hmulti hmaint (by simpa using hsucc)
    refine ⟨td ++ successCore r s.nextHandle cfg.settingAuto, by rw [htd], ?_, ?_⟩
    · rw [List.filter_append, filter_attemptStart_of_benign hben]
      cases hA : cfg.settingAuto <;>
        simp [successCore, isAttemptStartEv, hA, show List.range 1 = [0] from rfl]
    · rw [List.count_append,
        count_eq_zero_of_benign hben (show benignEv Ev.retryWait = false from rfl)]
      cases hA : cfg.settingAuto <;> simp [successCore, hA]
  | succ j ih =>
    intro r s hvis hidle hmulti hexp hmaint hinit hrun hurl hsnap hfail hsucc hjm
    have hskip : shouldSkipPlay cfg s = false := by
      simp [shouldSkipPlay, hurl, hinit, hrun, hidle, hmulti, hexp, hvis]
    have hnp : isPlaying env s = false := by
      rcases hsp : s.player with _ | k
      · simp [isPlaying, hsp]
      · simp [isPlaying, hsp, hstat k]
    rw [doDestroyAndPlay_failRound cfg env r m s hskip hurl hvid hexp hidle hmulti hmaint
      hsnap hnp (by simpa using hfail 0 (by omega)) (hupd (r + 1)) (by omega)]
    have hq' : (failRound s r).streamQuality = s.streamQuality := by simp [failRound]
    have hurl' : getStreamUrl cfg (failRound s r) ≠ "" := by
      rw [getStreamUrl_congr hq']
      exact hurl
    have hfail' : ∀ i, i < j →
        env.outcome ((failRound s r).attemptNo + i) = AttemptOutcome.loadReject := by
      intro i hi
      have h1 := hfail (i + 1) (by omega)
      have harith : (failRound s r).attemptNo + i = s.attemptNo + (i + 1) := by
        simp [failRound]
        omega
      rw [harith]
      exact h1
    have hsucc' : env.outcome ((failRound s r).attemptNo + j) = AttemptOutcome.firstFrame := by
      have harith : (failRound s r).attemptNo + j = s.attemptNo + (j + 1) := by
        simp [failRound]
        omega
      rw [harith]
      exact hsucc
    obtain ⟨l, hl, hfil, hcnt⟩ := ih (r + 1) (failRound s r)
      hvis hidle hmulti hexp hmaint hinit rfl hurl' hsnap hfail' hsucc' (by omega)
    refine ⟨[Ev.attemptStart r, Ev.construct s.nextHandle, Ev.attemptListenersOn s.nextHandle,
             Ev.loadIssued s.nextHandle, Ev.onError, Ev.retryWait] ++ l, ?_, ?_, ?_⟩
    · rw [hl]
      simp [failRound]
    · rw [List.filter_append, hfil]
      have h6 : List.filter isAttemptStartEv
          [Ev.attemptStart r, Ev.construct s.nextHandle, Ev.attemptListenersOn s.nextHandle,
           Ev.loadIssued s.nextHandle, Ev.onError, Ev.retryWait] = [Ev.attemptStart r] := by
        simp [isAttemptStartEv]
      rw [h6]
      have hr : (List.range (j + 1 + 1)).map (fun i => Ev.attemptStart (r + i))
          = Ev.attemptStart r :: (List.range (j + 1)).map (fun i => Ev.attemptStart (r + 1 + i)) := by
        rw [List.range_succ_eq_map, List.map_cons, List.map_map]
        refine congrArg₂ List.cons (by simp) ?_
        apply List.map_congr_left
        intro a ha
        simp only [Function.comp_apply]
        congr 1
        omega
      rw [hr]
      rfl
    · rw [List.count_append, hcnt]
      simp [List.count_cons]
      omega

/-! ## Claim theorems -/

/-- Claim C1 (code bug): a second player handle IS constructed without the
prior handle having been stopped and destroyed.  Attempt 0's load rejects,
leaving handle 0 referenced by `player.current` in STOPPED status; the retry
invocation's teardown (`stopVideoWithSnapshot`) early-returns because the
handle is not playing, so handle 1 is constructed while handle 0 was never
stopped or destroyed — contradicting the claim and `doDestroyAndPlay`'s own
doc comment ("it will first destroy any existing player instance"). -/
theorem doDestroyAndPlay_second_construct_without_destroy :
    Ev.construct 0 ∈ (doDestroyAndPlay cfgHD envC1 0 3 s0).events ∧
    Ev.construct 1 ∈ (doDestroyAndPlay cfgHD envC1 0 3 s0).events ∧
    Ev.stopDestroy 0 ∉ (doDestroyAndPlay cfgHD envC1 0 3 s0).events ∧
    Ev.stopError 0 ∉ (doDestroyAndPlay cfgHD envC1 0 3 s0).events := by
  decide

/-- Claim C2 counterexample: with only the maintenance flag set (visibility
true, the other three network-health flags clear, URL available, controller
initialized, nothing in flight), re-evaluation is NOT skipped —
`shouldSkipPlay` does not consult `isMaintenance` — and a player is
constructed before the attempt rejects inside `loadAndPlayVideo`. -/
theorem shouldSkipPlay_ignores_maintenance :
    sM.stateRefs.isMaintenance = true ∧
    sM.stateRefs.isVisible = true ∧
    sM.stateRefs.isIdleTimeout = false ∧
    sM.stateRefs.isExpired = false ∧
    sM.stateRefs.isMultiSession = false ∧
    shouldSkipPlay cfgHD sM = false ∧
    Ev.construct 0 ∈ (doDestroyAndPlay cfgHD envOk 0 2 sM).events := by
  decide

/-- Claim C3 (code bug): after retries exhaust (`maxRetry = 0`, the single
attempt fails), the stream-unavailable flag is published
(`isCanStream = false`) and no further automatic attempt happens — but the
exhaustion branch returns without clearing `isDoDestroyAndPlayRunning`, so a
subsequent entry trigger on a fully eligible state (visible, flags clear,
URL available, initialized) is also a no-op: the halted state is permanently
terminal, not "terminal until a new entry trigger arrives". -/
theorem halted_state_never_restarts :
    run3.isCanStream = false ∧
    run3.running = true ∧
    run3.stateRefs.isVisible = true ∧
    run3.stateRefs.isIdleTimeout = false ∧
    run3.stateRefs.isExpired = false ∧
    run3.stateRefs.isMultiSession = false ∧
    run3.stateRefs.isMaintenance = false ∧
    run3.isInit = true ∧
    getStreamUrl cfgHD run3 ≠ "" ∧
    entryTrigger cfgHD envF 0 run3 = run3 ∧
    entryTrigger cfgHD envOk 3 run3 = run3 := by
  decide

/-- Claim C4 counterexample: a single successful attempt fires `onPlay`
twice, not once — `play()` invokes it after `resumeAndSetVolume` (line 307)
and `doDestroyAndPlay` invokes it again after clearing the snapshot
(line 363). -/
theorem onPlay_fires_twice_per_success :
    (doDestroyAndPlay cfgHD envOk 0 3 s0).events.count (Ev.firstFrame 0) = 1 ∧
    (doDestroyAndPlay cfgHD envOk 0 3 s0).events.count Ev.onPlay = 2 := by
  decide

/-- Claim C8 counterexample: attempt 0 times out and its first-frame event
arrives late.  The attempt still rejects with the timeout error, but the late
handler runs `registerPlayerCallbacks` on the stale handle 0 (compare
`env8'`, identical except without the late event, where handle 0 is never
armed).  The leaked steady-state listener on handle 0 can then fire while
handle 1 is playing steadily, tearing handle 1 down (`stopDestroy 1`) and
constructing handle 2 — the late event from the timed-out attempt affected
subsequent attempts. -/
theorem late_firstFrame_after_timeout_leaks :
    0 ∈ run8.armedHandles ∧
    0 ∉ (doDestroyAndPlay cfgHD env8' 0 5 s0).armedHandles ∧
    run8.player = some 1 ∧
    Ev.stopDestroy 1 ∈ (steadyListenerFire cfgHD env8 5 run8).events ∧
    Ev.construct 2 ∈ (steadyListenerFire cfgHD env8 5 run8).events := by
  decide

/-- Claim C2 (amended): whenever visibility is false or any of idle-timeout,
session-expired, or multi-session is set at the moment an entry trigger
invokes re-evaluation, the re-evaluation is a no-op: the state is unchanged
and no player is constructed.  (The maintenance flag is NOT part of
`shouldSkipPlay`'s skip set — see the counterexample.) -/
theorem doDestroyAndPlay_skips_when_hidden_or_flagged (cfg : Cfg) (env : Env)
    (r m : Nat) (s : St)
    (h : s.stateRefs.isVisible = false ∨ s.stateRefs.isIdleTimeout = true ∨
         s.stateRefs.isExpired = true ∨ s.stateRefs.isMultiSession = true) :
    doDestroyAndPlay cfg env r m s = s := by
  apply doDestroyAndPlay_skip
  unfold shouldSkipPlay
  rcases h with h | h | h | h <;> simp [h]

/-- Witness for C2's amended theorem at a concrete hidden state. -/
theorem doDestroyAndPlay_skips_when_hidden_or_flagged_witness :
    (sHidden.stateRefs.isVisible = false ∨ sHidden.stateRefs.isIdleTimeout = true ∨
     sHidden.stateRefs.isExpired = true ∨ sHidden.stateRefs.isMultiSession = true) ∧
    doDestroyAndPlay cfgHD envOk 0 2 sHidden = sHidden :=
  ⟨Or.inl (by decide),
   doDestroyAndPlay_skips_when_hidden_or_flagged cfgHD envOk 0 2 sHidden (Or.inl (by decide))⟩

/-- Claim C4 (amended): every successful eligible attempt invokes `onPlay`
exactly TWICE — once inside `play` (line 307) and once more in
`doDestroyAndPlay`'s success branch (line 363). -/
theorem doDestroyAndPlay_success_onPlay_count (cfg : Cfg) (env : Env) (r m : Nat) (s : St)
    (hskip : shouldSkipPlay cfg s = false)
    (hurl : getStreamUrl cfg s ≠ "") (hvid : cfg.videoEl = true)
    (hexp : s.stateRefs.isExpired = false) (hidle : s.stateRefs.isIdleTimeout = false)
    (hmulti : s.stateRefs.isMultiSession = false) (hmaint : s.stateRefs.isMaintenance = false)
    (hout : env.outcome s.attemptNo = AttemptOutcome.firstFrame) :
    (doDestroyAndPlay cfg env r m s).events.count Ev.onPlay
      = s.events.count Ev.onPlay + 2 := by
  obtain ⟨td, htd, hben⟩ := doDestroyAndPlay_success_events cfg env r m s hskip hurl hvid
    hexp hidle hmulti hmaint hout
  rw [htd, List.count_append, List.count_append,
    count_eq_zero_of_benign hben (show benignEv Ev.onPlay = false from rfl)]
  cases hA : cfg.settingAuto <;> simp [successCore, hA]

/-- Witness for C4's amended theorem: the concrete single-success run. -/
theorem doDestroyAndPlay_success_onPlay_count_witness :
    shouldSkipPlay cfgHD s0 = false ∧
    (doDestroyAndPlay cfgHD envOk 0 3 s0).events.count Ev.onPlay
      = s0.events.count Ev.onPlay + 2 :=
  ⟨by decide,
   doDestroyAndPlay_success_onPlay_count cfgHD envOk 0 3 s0 (by decide) (by decide) (by decide)
     (by decide) (by decide) (by decide) (by decide) (by decide)⟩

/-- Claim C5: in every successful eligible attempt, the first-frame event of
the new handle occurs strictly before any `onPlay` invocation, and the held
snapshot is cleared exactly once, never before the first frame. -/
theorem firstFrame_before_onPlay_and_clear_once (cfg : Cfg) (env : Env) (r m : Nat) (s : St)
    (hskip : shouldSkipPlay cfg s = false)
    (hurl : getStreamUrl cfg s ≠ "") (hvid : cfg.videoEl = true)
    (hexp : s.stateRefs.isExpired = false) (hidle : s.stateRefs.isIdleTimeout = false)
    (hmulti : s.stateRefs.isMultiSession = false) (hmaint : s.stateRefs.isMaintenance = false)
    (hout : env.outcome s.attemptNo = AttemptOutcome.firstFrame) :
    ∃ l1 l2, (doDestroyAndPlay cfg env r m s).events
        = s.events ++ (l1 ++ Ev.firstFrame s.nextHandle :: l2)
      ∧ Ev.onPlay ∉ l1 ∧ Ev.clearSnapshot ∉ l1
      ∧ (l1 ++ Ev.firstFrame s.nextHandle :: l2).count Ev.clearSnapshot = 1 := by
  obtain ⟨td, htd, hben⟩ := doDestroyAndPlay_success_events cfg env r m s hskip hurl hvid
    hexp hidle hmulti hmaint hout
  have hop : Ev.onPlay ∉ td :=
    not_mem_of_benign hben (show benignEv Ev.onPlay = false from rfl)
  have hcs : Ev.clearSnapshot ∉ td :=
    not_mem_of_benign hben (show benignEv Ev.clearSnapshot = false from rfl)
  have hcz : td.count Ev.clearSnapshot = 0 :=
    count_eq_zero_of_benign hben (show benignEv Ev.clearSnapshot = false from rfl)
  refine ⟨td ++ [Ev.attemptStart r, Ev.construct s.nextHandle,
                 Ev.attemptListenersOn s.nextHandle, Ev.loadIssued s.nextHandle],
          [Ev.listenersRegistered s.nextHandle] ++
            (if cfg.settingAuto then [Ev.qualityCbRegistered s.nextHandle] else []) ++
            [Ev.onPlay, Ev.clearSnapshot, Ev.onPlay], ?_, ?_, ?_, ?_⟩
  · rw [htd]
    simp [successCore, List.append_assoc]
  · simp [List.mem_append, hop]
  · simp [List.mem_append, hcs]
  · cases hA : cfg.settingAuto <;>
      simp [List.count_append, hcz, hA]

/-- Witness for C5 at the concrete single-success run. -/
theorem firstFrame_before_onPlay_and_clear_once_witness :
    shouldSkipPlay cfgHD s0 = false ∧
    (∃ l1 l2, (doDestroyAndPlay cfgHD envOk 0 3 s0).events
        = s0.events ++ (l1 ++ Ev.firstFrame s0.nextHandle :: l2)
      ∧ Ev.onPlay ∉ l1 ∧ Ev.clearSnapshot ∉ l1
      ∧ (l1 ++ Ev.firstFrame s0.nextHandle :: l2).count Ev.clearSnapshot = 1) :=
  ⟨by decide,
   firstFrame_before_onPlay_and_clear_once cfgHD envOk 0 3 s0 (by decide) (by decide)
     (by decide) (by decide) (by decide) (by decide) (by decide) (by decide)⟩

/-- Claim C6: when a non-empty snapshot is already held, a capture is a
complete no-op on the state, so a second capture in a row leaves the held
image (and everything else) unchanged. -/
theorem freezeWithSnapshot_noop_when_held (env : Env) (s : St)
    (h : s.stateRefs.snapshot ≠ "") :
    freezeWithSnapshot env s = s ∧
    freezeWithSnapshot env (freezeWithSnapshot env s) = s := by
  have h1 : freezeWithSnapshot env s = s := freezeWithSnapshot_of_held h
  refine ⟨h1, ?_⟩
  rw [h1]
  exact h1

/-- Witness for C6 at a concrete snapshot-holding state. -/
theorem freezeWithSnapshot_noop_when_held_witness :
    sHeld.stateRefs.snapshot ≠ "" ∧
    freezeWithSnapshot envOk sHeld = sHeld ∧
    freezeWithSnapshot envOk (freezeWithSnapshot envOk sHeld) = sHeld :=
  ⟨by decide,
   (freezeWithSnapshot_noop_when_held envOk sHeld (by decide)).1,
   (freezeWithSnapshot_noop_when_held envOk sHeld (by decide)).2⟩

/-- Claim C7: over a session driven by an entry trigger (which passes
`retryCount = 0`), with `j` consecutive failed attempts before a success,
the logged attempt numbers are exactly `0, 1, …, j` — the retry count grows
by exactly 1 per failed attempt — with exactly one retry-delay wait per
failure; and every invocation (in particular every retry re-invocation)
re-evaluates `shouldSkipPlay` on the current state, being a no-op whenever
it holds, rather than blindly retrying. -/
theorem retryCount_increments_resets_and_rechecks (cfg : Cfg) (env : Env) (m j : Nat) (s : St)
    (hstat : ∀ k, env.status k = PlayerStatus.STOPPED)
    (hupd : ∀ i, env.refsUpdate i = none)
    (hvid : cfg.videoEl = true)
    (hvis : s.stateRefs.isVisible = true) (hidle : s.stateRefs.isIdleTimeout = false)
    (hmulti : s.stateRefs.isMultiSession = false) (hexp : s.stateRefs.isExpired = false)
    (hmaint : s.stateRefs.isMaintenance = false) (hinit : s.isInit = true)
    (hrun : s.running = false) (hurl : getStreamUrl cfg s ≠ "")
    (hsnap : s.stateRefs.snapshot ≠ "")
    (hfail : ∀ i, i < j → env.outcome (s.attemptNo + i) = AttemptOutcome.loadReject)
    (hsucc : env.outcome (s.attemptNo + j) = AttemptOutcome.firstFrame)
    (hjm : j ≤ m) :
    (∃ l, (entryTrigger cfg env m s).events = s.events ++ l ∧
       l.filter isAttemptStartEv = (List.range (j + 1)).map (fun i => Ev.attemptStart i) ∧
       l.count Ev.retryWait = j) ∧
    (∀ r' m' s', shouldSkipPlay cfg s' = true → doDestroyAndPlay cfg env r' m' s' = s') := by
  constructor
  · obtain ⟨l, h1, h2, h3⟩ := retry_chain cfg env m hstat hupd hvid j 0 s hvis hidle hmulti
      hexp hmaint hinit hrun hurl hsnap hfail hsucc (by omega)
    refine ⟨l, h1, ?_, h3⟩
    rw [h2]
    simp
  · intro r' m' s' hsk
    exact doDestroyAndPlay_skip cfg env r' m' s' hsk

/-- Witness for C7: two load failures then success from a held-snapshot
eligible state. -/
theorem retryCount_increments_resets_and_rechecks_witness :
    (∃ l, (entryTrigger cfgHD env2F 5 sHeld).events = sHeld.events ++ l ∧
       l.filter isAttemptStartEv = (List.range 3).map (fun i => Ev.attemptStart i) ∧
       l.count Ev.retryWait = 2) ∧
    (∀ r' m' s', shouldSkipPlay cfgHD s' = true → doDestroyAndPlay cfgHD env2F r' m' s' = s') :=
  retryCount_increments_resets_and_rechecks cfgHD env2F 5 2 sHeld
    (fun _ => rfl) (fun _ => rfl) (by decide) (by decide) (by decide) (by decide)
    (by decide) (by decide) (by decide) (by decide) (by decide) (by decide)
    (by intro i hi; interval_cases i <;> rfl) (by rfl) (by omega)

/-- Claim C8 (amended): when the timeout settles attempt's race first, the
attempt rejects with the timeout-specific error — a late first-frame or
error event cannot re-settle the already-settled promise — but the late
first-frame handler still runs `registerPlayerCallbacks`, arming steady-state
listeners on the stale handle (a side effect that can affect subsequent
attempts). -/
theorem loadAndPlayVideo_timeout_rejects_and_arms (cfg : Cfg) (env : Env) (s : St) (h : Nat)
    (hflags : (s.stateRefs.isExpired || s.stateRefs.isIdleTimeout ||
               s.stateRefs.isMultiSession || s.stateRefs.isMaintenance) = false)
    (hout : env.outcome s.attemptNo = AttemptOutcome.timeout) :
    (loadAndPlayVideo cfg env s h).2 = Except.error PlayErr.firstFrameTimeout ∧
    (env.lateFirstFrame s.attemptNo = true →
      h ∈ ((loadAndPlayVideo cfg env s h).1).armedHandles) := by
  unfold loadAndPlayVideo
  simp only [hflags, Bool.false_eq_true, if_false, hout]
  constructor
  · trivial
  · intro hl
    simp only [hl, if_true]
    unfold registerPlayerCallbacks
    split <;> simp

/-- Witness for C8's amended theorem at the concrete timeout scenario. -/
theorem loadAndPlayVideo_timeout_rejects_and_arms_witness :
    (loadAndPlayVideo cfgHD envT s0 0).2 = Except.error PlayErr.firstFrameTimeout ∧
    0 ∈ ((loadAndPlayVideo cfgHD envT s0 0).1).armedHandles :=
  ⟨(loadAndPlayVideo_timeout_rejects_and_arms cfgHD envT s0 0 (by decide) (by decide)).1,
   (loadAndPlayVideo_timeout_rejects_and_arms cfgHD envT s0 0 (by decide) (by decide)).2
     (by decide)⟩

/-- Claim C9: a quality-change event emitted by the player updates the
active tier only while the player is playing and only while automatic mode
is selected; when the event carries a target tier it replaces the active
tier (and an actual tier change, when eligible, triggers a new attempt);
when the target tier is absent, every armed handler writes its
registration-captured tier and the newest-registered write wins — and since
the controller's quality effect re-registers a fresh callback capturing the
committed tier on every tier change with a live player (and `play` registers
one at every first frame), the newest captured tier equals the active tier,
so the active tier is left unchanged (a no-op update). -/
theorem quality_event_semantics (cfg : Cfg) (env : Env) (m : Nat) (h : Nat)
    (ev : QualityEvent) (s : St) :
    (cfg.settingAuto = false → qualityEventStep cfg env m h ev s = s) ∧
    (isPlaying env s = false → qualityEventStep cfg env m h ev s = s) ∧
    (∀ t c, cfg.settingAuto = true → isPlaying env s = true →
      lastQualityCbOn h s = some c → ev.toQ = some t →
      (qualityEventStep cfg env m h ev s).streamQuality = t) ∧
    (cfg.settingAuto = true → isPlaying env s = true →
      lastQualityCbOn h s = some s.streamQuality → ev.toQ = none →
      qualityEventStep cfg env m h ev s = s) ∧
    (∀ t c, cfg.settingAuto = true → isPlaying env s = true →
      lastQualityCbOn h s = some c → ev.toQ = some t → t ≠ s.streamQuality →
      shouldSkipPlay cfg {s with streamQuality := t} = false →
      Ev.attemptStart 0 ∈ (qualityEventStep cfg env m h ev s).events) := by
  refine ⟨?_, ?_, ?_, ?_, ?_⟩
  · intro hA
    unfold qualityEventStep
    split
    · rfl
    · simp [hA]
  · intro hP
    unfold qualityEventStep
    split
    · rfl
    · by_cases hA : cfg.settingAuto <;> simp [hA, hP]
  · intro t c hA hP hlast ht
    simp only [qualityEventStep, hlast, hA, hP, ht, Bool.not_true, Bool.false_eq_true,
      if_false]
    split
    · rename_i heq
      exact heq.symm
    · by_cases hv : cfg.videoEl
      · rcases hpl : s.player with _ | p <;>
          simp only [hv, if_true, hpl] <;>
          exact doDestroyAndPlay_streamQuality cfg env 0 m _
      · simp only [hv, Bool.false_eq_true, if_false]
        exact doDestroyAndPlay_streamQuality cfg env 0 m _
  · intro hA hP hlast ht
    simp [qualityEventStep, hlast, hA, hP, ht]
  · intro t c hA hP hlast ht hne hsk
    have key : ∀ X : St, X.streamQuality = t → X.isInit = s.isInit →
        X.running = s.running → X.stateRefs = s.stateRefs →
        Ev.attemptStart 0 ∈ (entryTrigger cfg env m X).events := by
      intro X h1 h2 h3 h4
      refine attemptStart_mem cfg env 0 m X ?_
      have hcongr : shouldSkipPlay cfg X = shouldSkipPlay cfg {s with streamQuality := t} :=
        shouldSkipPlay_congr h1 h2 h3 h4
      rw [hcongr]
      exact hsk
    simp only [qualityEventStep, hlast, hA, hP, ht, Bool.not_true, Bool.false_eq_true,
      if_false, if_neg hne]
    by_cases hv : cfg.videoEl
    · rcases hpl : s.player with _ | p <;>
        simp only [hv, if_true, hpl] <;>
        exact key _ rfl rfl rfl rfl
    · simp only [hv, Bool.false_eq_true, if_false]
      exact key _ rfl rfl rfl rfl

/-- Witness for C9 at the concrete AUTO scenario: a target-tier event
commits tier 2 and re-registers a callback capturing 2, after which an
absent-target event is a complete no-op. -/
theorem quality_event_semantics_witness :
    (qualityEventStep cfg9 env9 3 1 ev1 s9).streamQuality = 2 ∧
    lastQualityCbOn 1 step1 = some step1.streamQuality ∧
    qualityEventStep cfg9 env9 3 1 ev2 step1 = step1 :=
  ⟨(quality_event_semantics cfg9 env9 3 1 ev1 s9).2.2.1 2 1
     (by decide) (by decide) (by decide) (by decide),
   by decide,
   (quality_event_semantics cfg9 env9 3 1 ev2 step1).2.2.2.1
     (by decide) (by decide) (by decide) (by decide)⟩

/-- Claim C10: `loadAndPlayVideo` rejects immediately with the
network-conditions error — with the state unchanged, so before registering
any listener or issuing load — exactly when one of the four network-health
flags is set in the trigger snapshot at call time; with all four clear it
never raises that error. -/
theorem loadAndPlayVideo_networkConditions_gate (cfg : Cfg) (env : Env) (s : St) (h : Nat) :
    (((s.stateRefs.isExpired || s.stateRefs.isIdleTimeout ||
       s.stateRefs.isMultiSession || s.stateRefs.isMaintenance) = true) →
      loadAndPlayVideo cfg env s h = (s, Except.error PlayErr.networkConditions)) ∧
    (((s.stateRefs.isExpired || s.stateRefs.isIdleTimeout ||
       s.stateRefs.isMultiSession || s.stateRefs.isMaintenance) = false) →
      (loadAndPlayVideo cfg env s h).2 ≠ Except.error PlayErr.networkConditions) := by
  constructor
  · intro hf
    simp [loadAndPlayVideo, hf]
  · intro hf
    unfold loadAndPlayVideo
    simp only [hf, Bool.false_eq_true, if_false]
    cases ho : env.outcome s.attemptNo <;> simp [ho]

/-- Witness for C10: one flagged state (expired) and one clear state. -/
theorem loadAndPlayVideo_networkConditions_gate_witness :
    loadAndPlayVideo cfgHD envOk sExp 0 = (sExp, Except.error PlayErr.networkConditions) ∧
    (loadAndPlayVideo cfgHD envOk s0 0).2 ≠ Except.error PlayErr.networkConditions :=
  ⟨(loadAndPlayVideo_networkConditions_gate cfgHD envOk sExp 0).1 (by decide),
   (loadAndPlayVideo_networkConditions_gate cfgHD envOk s0 0).2 (by decide)⟩

end UseStream
